import Mathlib

set_option maxHeartbeats 1000000

/-- An agent record as constructed by the server: the keyword fields `name`, `model`,
`instructions` of a `ClaudeAgent`, together with its attached transfer functions.
A dynamically generated transfer closure is observationally determined by the registry
key of its target agent (its function name and docstring are derived from the target
and calling it returns the target), so the `functions` list is embedded as the ordered
list of target registry keys. -/
structure ClaudeAgent where
  name : String
  model : String
  instructions : String
  functions : List String
  deriving DecidableEq

/-- The global `agents` dict: a Python dict preserves insertion order and has unique
keys, embedded as an ordered association list from name to record. -/
abbrev Registry := List (String × ClaudeAgent)

/-- One conversation message, a dict with `role` and `content` entries. -/
structure Message where
  role : String
  content : String
  deriving DecidableEq

/-- The process-wide mutable session state: the globals `conversation_history`,
`current_agent` (None before any agent exists) and `context_variables`.  Context
values are embedded as strings; the handlers only pass them through. -/
structure SessionState where
  conversation_history : List Message
  current_agent : Option String
  context_variables : List (String × String)
  deriving DecidableEq

/-- The `ClaudeResponse` value returned by `swarm_client.run`: the new message list,
the name of the agent active at the end of the exchange (`response.agent.name` is the
only field of `response.agent` the handler reads), and the returned context mapping. -/
structure SwarmResponse where
  messages : List Message
  agentName : String
  context_variables : List (String × String)
  deriving DecidableEq

/-- A JSON object appearing as one agent entry in the storage file, embedded as its
ordered key-value pairs (all leaf values in this file are strings). -/
structure JsonObj where
  fields : List (String × String)
  deriving DecidableEq

/-- `data[key]` lookup on a stored JSON object; `none` embeds a Python `KeyError`. -/
def getField (obj : JsonObj) (key : String) : Option String :=
  obj.fields.lookup key

/-- The content of the storage file as seen by `load_agents`: absent, present but not
parseable as JSON (`json.load` raises), or parsed into an ordered name-to-object map. -/
inductive StoredFile where
  | missing
  | invalidJson
  | parsed (entries : List (String × JsonObj))
  deriving DecidableEq

/-- Source `_setup_transfer_functions` (lines 75-98): builds `transfer_functions`, one
per registry entry in iteration order, then for every source agent resets
`source_agent.functions = []` and appends the transfer function of every target with
`target_name != source_name`.  Each transfer function is embedded as its target key. -/
def _setup_transfer_functions (agents : Registry) : Registry :=
  let transfer_functions := agents.map Prod.fst
  agents.map fun p =>
    (p.1, { p.2 with functions := transfer_functions.filter fun target_name => target_name != p.1 })

/-- Source `save_agents` (lines 58-73), the data it serializes: for each registry entry
the object `{"name": agent.name, "model": agent.model, "instructions": agent.instructions}`,
keyed by the registry key.  `functions` is never serialized. -/
def save_agents_data (agents : Registry) : List (String × JsonObj) :=
  agents.map fun p =>
    (p.1, ⟨[("name", p.2.name), ("model", p.2.model), ("instructions", p.2.instructions)]⟩)

/-- The sequence of file states observable while `save_agents` runs:
`open(AGENTS_FILE, 'w')` truncates the file in place before `json.dump` writes the
serialized registry into it, so the trace is previous content, then a truncated file,
then the new snapshot. -/
inductive FileState where
  | snapshot (data : List (String × JsonObj))
  | truncated
  deriving DecidableEq

/-- Observable file-state trace of one `save_agents` call starting from previous file
content `prev`: the open-for-write truncation is observable before the dump completes. -/
def save_agents_states (agents : Registry) (prev : FileState) : List FileState :=
  [prev, FileState.truncated, FileState.snapshot (save_agents_data agents)]

/-- The per-record loop of `load_agents` (lines 39-46): each stored entry is turned
into a `ClaudeAgent` with empty functions and assigned into the registry; a record
missing one of the accessed keys raises `KeyError`, aborting the loop with the entries
inserted so far already committed (the `Bool` is `false` when the loop aborted).
Assignment is embedded as an append: the loop runs on the startup registry, which is
empty, and a parsed JSON object has unique keys, so no assignment ever hits an
existing key. -/
def load_agents_loop : List (String × JsonObj) → Registry → Registry × Bool
  | [], acc => (acc, true)
  | (name, data) :: rest, acc =>
    match getField data "name", getField data "model", getField data "instructions" with
    | some n, some m, some i => load_agents_loop rest (acc ++ [(name, ⟨n, m, i, []⟩)])
    | _, _, _ => (acc, false)

/-- First entry of a non-empty registry, `list(agents.keys())[0]` together with its
record; the default is never reached by the handlers, which guard on non-emptiness. -/
def firstAgent : Registry → String × ClaudeAgent
  | [] => ("", ⟨"", "", "", []⟩)
  | p :: _ => p

/-- Source `load_agents` (lines 31-56) acting on prior globals `agents0`, `current0`:
missing file does nothing; unparseable JSON raises inside `try` and is logged, leaving
state untouched; a parsed file runs the record loop, and only when the loop completes
are transfer functions rebuilt and `current_agent` defaulted to the first key when it
was falsy.  The returned `Bool` records whether an error was caught and logged. -/
def load_agents (file : StoredFile) (agents0 : Registry) (current0 : Option String) :
    Registry × Option String × Bool :=
  match file with
  | .missing => (agents0, current0, false)
  | .invalidJson => (agents0, current0, true)
  | .parsed entries =>
    match load_agents_loop entries agents0 with
    | (agents1, true) =>
      let agents2 := _setup_transfer_functions agents1
      let current1 :=
        if agents2 ≠ [] ∧ (current0 = none ∨ current0 = some "") then
          some (firstAgent agents2).1
        else current0
      (agents2, current1, false)
    | (agents1, false) => (agents1, current0, true)

/-- Source `create_agent_handler` (lines 100-132): validation check, duplicate check,
then insertion, transfer rebuild, first-agent activation and persistence.  The result
is the returned text together with the new registry and `current_agent`. -/
def create_agent_handler (agents : Registry) (current : Option String)
    (name instructions model : String) : String × Registry × Option String :=
  if name = "" ∨ instructions = "" then
    ("❌ Name and instructions required", agents, current)
  else if (agents.lookup name).isSome then
    ("❌ Agent \x27" ++ name ++ "\x27 already exists", agents, current)
  else
    let agents1 := agents ++ [(name, ⟨name, model, instructions, []⟩)]
    let agents2 := _setup_transfer_functions agents1
    let current1 :=
      match current with
      | none => some name
      | some c => if c = "" then some name else some c
    ("✅ Created Swarm agent \x27" ++ name ++ "\x27 with transfer capabilities!",
     agents2, current1)

/-- Resolution of the starting agent inside `chat_with_swarm_handler` (lines 139 and
147-152): `starting_agent_name = args.get("agent_name", current_agent)`; that name is
used when it is truthy and present in the registry, otherwise the first registry entry
is used (the name variable being reassigned to the first key). -/
def resolve_starting (agents : Registry) (agent_name current : Option String) :
    String × ClaudeAgent :=
  let starting_name0 : Option String :=
    match agent_name with
    | some s => some s
    | none => current
  match starting_name0 with
  | some s =>
    if s ≠ "" then
      match agents.lookup s with
      | some a => (s, a)
      | none => firstAgent agents
    else firstAgent agents
  | none => firstAgent agents

/-- Python `dict.update`: keys already present keep their position and get the new
value; new keys are appended in update order. -/
def dictUpdate (base upds : List (String × String)) : List (String × String) :=
  upds.foldl
    (fun acc kv =>
      if (acc.lookup kv.1).isSome then
        acc.map fun q => if q.1 = kv.1 then (q.1, kv.2) else q
      else acc ++ [kv])
    base

/-- Source `chat_with_swarm_handler` (lines 134-188), parameterized by the opaque
collaborator `run` (`swarm_client.run`; an exception it raises is `Except.error`).
The user message is appended to the history before the `try` block, so on collaborator
failure the appended message survives while agent and context are untouched. -/
def chat_with_swarm_handler
    (run : ClaudeAgent → List Message → List (String × String) → Except String SwarmResponse)
    (agents : Registry) (st : SessionState)
    (message : String) (agent_name : Option String) : String × SessionState :=
  if message = "" then
    ("❌ Message is required", st)
  else if agents = [] then
    ("❌ No agents available. Create agents first.", st)
  else
    let resolved := resolve_starting agents agent_name st.current_agent
    let starting_agent_name := resolved.1
    let starting_agent := resolved.2
    let history1 := st.conversation_history ++ [⟨"user", message⟩]
    match run starting_agent history1 st.context_variables with
    | .ok response =>
      let new_context := dictUpdate st.context_variables response.context_variables
      let agent_response :=
        match response.messages.getLast? with
        | some m => m.content
        | none => "No response"
      let transfer_info :=
        if response.agentName ≠ starting_agent_name then
          "\n\n🔄 **Agent Transfer**: " ++ starting_agent_name ++ " → " ++ response.agentName
        else ""
      ("🤖 **" ++ response.agentName ++ "**:\n\n" ++ agent_response ++ transfer_info,
       ⟨response.messages, some response.agentName, new_context⟩)
    | .error e =>
      ("❌ Swarm error: " ++ e, { st with conversation_history := history1 })

/-- The `team_specs` dict of `create_finance_team_handler` (lines 194-211): for each
of the four role names its instructions (templated on the company name) and model. -/
def team_specs (company_name : String) : List (String × String × String) :=
  [("Risk_Analyst",
    ("You are a quantitative risk analyst for " ++ company_name ++
     ". When users ask about portfolio optimization or investment strategies, transfer to the Portfolio Manager. For market research questions, transfer to the Research Analyst. You specialize in VaR, stress testing, and risk metrics.",
     "claude-3-5-sonnet-20241022")),
   ("Portfolio_Manager",
    ("You are a portfolio manager for " ++ company_name ++
     ". When users ask about risk calculations, transfer to the Risk Analyst. For market analysis, transfer to the Research Analyst. For data questions, transfer to the Data Analyst. You specialize in optimization and asset allocation.",
     "claude-3-5-sonnet-20241022")),
   ("Data_Analyst",
    ("You are a financial data analyst for " ++ company_name ++
     ". When users ask about risk assessment, transfer to the Risk Analyst. For investment advice, transfer to the Portfolio Manager. You specialize in data collection and analysis.",
     "claude-3-5-sonnet-20241022")),
   ("Research_Analyst",
    ("You are a research analyst for " ++ company_name ++
     ". When users ask about portfolio optimization, transfer to the Portfolio Manager. For risk questions, transfer to the Risk Analyst. You specialize in market research and investment analysis.",
     "claude-3-5-sonnet-20241022"))]

/-- The four fixed role names, in `team_specs` iteration order. -/
def financeNames : List String :=
  ["Risk_Analyst", "Portfolio_Manager", "Data_Analyst", "Research_Analyst"]

/-- Source `create_finance_team_handler` (lines 190-248): each spec whose name is not
yet in the registry is inserted and recorded in `created_agents`; if at least one was
created the transfer functions are rebuilt once, `current_agent` is set to
`"Risk_Analyst"` and the registry persisted; the returned text distinguishes the
created case from the already-exists case. -/
def create_finance_team_handler (agents : Registry) (current : Option String)
    (company_name : String) : String × Registry × Option String :=
  let specs := team_specs company_name
  let folded :=
    specs.foldl
      (fun (acc : Registry × List String) spec =>
        if (acc.1.lookup spec.1).isSome then acc
        else (acc.1 ++ [(spec.1, ⟨spec.1, spec.2.2, spec.2.1, []⟩)], acc.2 ++ [spec.1]))
      (agents, [])
  let agents1 := folded.1
  let created_agents := folded.2
  if created_agents = [] then
    ("✅ **Swarm Finance Team for " ++ company_name ++ "**\n\n" ++
     "**Team already exists for " ++ company_name ++ "**",
     agents1, current)
  else
    let agents2 := _setup_transfer_functions agents1
    ("✅ **Swarm Finance Team for " ++ company_name ++ "**\n\n" ++
     "**Created agents with transfer capabilities:** " ++
     String.intercalate ", " created_agents ++ "\n\n" ++
     "🔄 **Swarm Features Enabled:**\n" ++
     "• Automatic agent handoffs based on expertise\n" ++
     "• Shared conversation context\n" ++
     "• Intelligent routing between specialists\n\n" ++
     "💡 **Try multi-step queries** - agents will coordinate automatically!",
     agents2, some "Risk_Analyst")

/-- The `{name, model, instructions}` triples of a registry, the persisted payload. -/
def triples (agents : Registry) : List (String × String × String) :=
  agents.map fun p => (p.2.name, p.2.model, p.2.instructions)

/-- A concrete agent record used in witnesses and counterexamples. -/
def agentA : ClaudeAgent := ⟨"A", "claude-3-5-sonnet-20241022", "alpha analyst", []⟩

/-- A second concrete agent record used in witnesses and counterexamples. -/
def agentB : ClaudeAgent := ⟨"B", "claude-3-5-sonnet-20241022", "beta analyst", []⟩

/-- A collaborator that always fails, exercising the exception path of the chat
handler. -/
def runFail : ClaudeAgent → List Message → List (String × String) →
    Except String SwarmResponse :=
  fun _ _ _ => Except.error "boom"

/-- A collaborator that reports back the agent it was invoked with, making the
resolved starting agent observable through the committed session state. -/
def runProbe : ClaudeAgent → List Message → List (String × String) →
    Except String SwarmResponse :=
  fun a _ _ => Except.ok ⟨[⟨"assistant", a.name⟩], a.name, []⟩

/-- A collaborator that succeeds but returns an empty message list, exercising the
`"No response"` fallback of the chat handler. -/
def runEmpty : ClaudeAgent → List Message → List (String × String) →
    Except String SwarmResponse :=
  fun _ _ _ => Except.ok ⟨[], "Solo", [("k2", "v2")]⟩

/-- The four agent records `create_finance_team_handler` inserts when none of the
role names is registered yet, in `team_specs` iteration order. -/
def finance_agents (company_name : String) : Registry :=
  (team_specs company_name).map fun spec => (spec.1, ⟨spec.1, spec.2.2, spec.2.1, []⟩)

theorem setup_eq_map (r : Registry) :
    _setup_transfer_functions r =
      r.map fun p =>
        (p.1, { p.2 with functions := (r.map Prod.fst).filter fun t => t != p.1 }) := rfl

theorem setup_functions_spec (r : Registry) (p : String × ClaudeAgent)
    (hp : p ∈ _setup_transfer_functions r) :
    p.2.functions = (r.map Prod.fst).filter fun t => t != p.1 := by
  rw [setup_eq_map] at hp
  obtain ⟨q, _, rfl⟩ := List.mem_map.mp hp
  rfl

theorem setup_keys (r : Registry) :
    (_setup_transfer_functions r).map Prod.fst = r.map Prod.fst := by
  rw [setup_eq_map, List.map_map]
  rfl

theorem lookup_append_none {β : Type} (k : String) (l₁ l₂ : List (String × β))
    (h : List.lookup k l₁ = none) :
    List.lookup k (l₁ ++ l₂) = List.lookup k l₂ := by
  induction l₁ with
  | nil => rfl
  | cons p l ih =>
    obtain ⟨a, b⟩ := p
    rw [List.lookup_cons] at h
    rw [List.cons_append, List.lookup_cons]
    cases hpk : k == a with
    | true => rw [hpk] at h; exact Option.noConfusion h
    | false => rw [hpk] at h; exact ih h

theorem lookup_append_isSome {β : Type} (k : String) (l₁ l₂ : List (String × β)) :
    (List.lookup k (l₁ ++ l₂)).isSome =
      ((List.lookup k l₁).isSome || (List.lookup k l₂).isSome) := by
  induction l₁ with
  | nil => rfl
  | cons p l ih =>
    obtain ⟨a, b⟩ := p
    rw [List.cons_append, List.lookup_cons, List.lookup_cons]
    cases hpk : k == a <;> simp [hpk, ih]

theorem lookup_map_snd_isSome (f : String × ClaudeAgent → ClaudeAgent) (k : String)
    (l : Registry) :
    (List.lookup k (l.map fun p => (p.1, f p))).isSome = (List.lookup k l).isSome := by
  induction l with
  | nil => rfl
  | cons p l ih =>
    obtain ⟨a, b⟩ := p
    rw [List.map_cons, List.lookup_cons, List.lookup_cons]
    cases hpk : k == a <;> simp [hpk, ih]

theorem lookup_setup_isSome (k : String) (r : Registry) :
    (List.lookup k (_setup_transfer_functions r)).isSome = (List.lookup k r).isSome := by
  rw [setup_eq_map]
  exact lookup_map_snd_isSome _ k r

/-- C1: after any relation rebuild, every agent record in the registry carries as its
transfer targets exactly the other registered agents' names in registry iteration
order, and never refers to itself. -/
theorem transfer_rebuild_all_others (r : Registry)
    (hinv : ∀ q ∈ r, q.2.name = q.1)
    (p : String × ClaudeAgent) (hp : p ∈ _setup_transfer_functions r) :
    p.2.functions = (r.map fun q => q.2.name).filter (fun n => n != p.2.name) ∧
    p.2.name ∉ p.2.functions := by
  rw [setup_eq_map] at hp
  obtain ⟨q, hq, rfl⟩ := List.mem_map.mp hp
  have he : q.2.name = q.1 := hinv q hq
  have hmaps : r.map (fun x => x.2.name) = r.map Prod.fst :=
    List.map_congr_left fun x hx => hinv x hx
  constructor
  · show (r.map Prod.fst).filter (fun t => t != q.1) =
      (r.map fun x => x.2.name).filter (fun n => n != q.2.name)
    rw [hmaps, he]
  · show q.2.name ∉ (r.map Prod.fst).filter (fun t => t != q.1)
    intro hmem
    rw [List.mem_filter, he] at hmem
    simp at hmem

/-- Witness for C1 at a concrete two-agent registry. -/
theorem transfer_rebuild_all_others_witness :
    (("A", (⟨"A", "claude-3-5-sonnet-20241022", "alpha analyst", ["B"]⟩ : ClaudeAgent)) :
        String × ClaudeAgent).2.functions =
      (([("A", agentA), ("B", agentB)] : Registry).map fun q => q.2.name).filter
        (fun n => n !=
          (("A", (⟨"A", "claude-3-5-sonnet-20241022", "alpha analyst", ["B"]⟩ : ClaudeAgent)) :
            String × ClaudeAgent).2.name) ∧
    (("A", (⟨"A", "claude-3-5-sonnet-20241022", "alpha analyst", ["B"]⟩ : ClaudeAgent)) :
        String × ClaudeAgent).2.name ∉
      (("A", (⟨"A", "claude-3-5-sonnet-20241022", "alpha analyst", ["B"]⟩ : ClaudeAgent)) :
        String × ClaudeAgent).2.functions :=
  transfer_rebuild_all_others [("A", agentA), ("B", agentB)] (by decide)
    ("A", ⟨"A", "claude-3-5-sonnet-20241022", "alpha analyst", ["B"]⟩) (by decide)

/-- C8: a chat request with an empty message always returns the failure text and the
untouched session state, for every collaborator (so the collaborator is never
consulted), registry and explicit agent name. -/
theorem chat_empty_message_rejected
    (run : ClaudeAgent → List Message → List (String × String) → Except String SwarmResponse)
    (agents : Registry) (st : SessionState) (agent_name : Option String) :
    chat_with_swarm_handler run agents st "" agent_name = ("❌ Message is required", st) := rfl

/-- C2 counterexample: on a collaborator failure the session state is not restored —
the user message appended before the call survives, so the state differs from the
state the call began with. -/
theorem chat_collaborator_error_transcript_grows :
    (chat_with_swarm_handler runFail [("A", agentA)]
        ⟨[], some "A", []⟩ "hi" none).2 =
      (⟨[⟨"user", "hi"⟩], some "A", []⟩ : SessionState) ∧
    (⟨[⟨"user", "hi"⟩], some "A", []⟩ : SessionState) ≠ ⟨[], some "A", []⟩ := by
  decide

/-- C2 amended: when the collaborator fails, the handler returns the failure text and
leaves the active agent and context values unchanged, but the transcript keeps the
user message that was appended before the collaborator call. -/
theorem chat_collaborator_error_commit
    (run : ClaudeAgent → List Message → List (String × String) → Except String SwarmResponse)
    (agents : Registry) (st : SessionState) (message : String)
    (agent_name : Option String) (e : String)
    (hm : message ≠ "") (ha : agents ≠ [])
    (hr : run (resolve_starting agents agent_name st.current_agent).2
        (st.conversation_history ++ [⟨"user", message⟩]) st.context_variables =
        Except.error e) :
    chat_with_swarm_handler run agents st message agent_name =
      ("❌ Swarm error: " ++ e,
       { st with conversation_history := st.conversation_history ++ [⟨"user", message⟩] }) := by
  simp only [chat_with_swarm_handler, if_neg hm, if_neg ha, hr]

/-- Witness for C2 amended at a concrete failing collaborator call. -/
theorem chat_collaborator_error_commit_witness :
    chat_with_swarm_handler runFail [("A", agentA)]
        ⟨[⟨"user", "x"⟩], some "A", [("k", "v")]⟩ "hello" none =
      ("❌ Swarm error: boom",
       ⟨[⟨"user", "x"⟩, ⟨"user", "hello"⟩], some "A", [("k", "v")]⟩) :=
  chat_collaborator_error_commit runFail [("A", agentA)]
    ⟨[⟨"user", "x"⟩], some "A", [("k", "v")]⟩ "hello" none "boom"
    (by decide) (by decide) rfl

/-- C3 counterexample: with registry `[A, B]`, active agent `B`, and an explicit
starting name `C` absent from the registry, the chat starts with the first registered
agent `A`, not with the active agent `B`. -/
theorem chat_explicit_missing_skips_active :
    (chat_with_swarm_handler runProbe [("A", agentA), ("B", agentB)]
        ⟨[], some "B", []⟩ "hi" (some "C")).2.current_agent = some "A" ∧
    (some "A" : Option String) ≠ some "B" := by
  decide

/-- C3 amended: the starting agent is the explicitly supplied name when it is nonempty
and registered; when no name is supplied, the current active agent when it is nonempty
and registered; in every other case — including an explicit name absent from the
registry — the first registered agent, without consulting the active agent. -/
theorem resolve_starting_precedence (agents : Registry) (current : Option String) :
    (∀ s a, s ≠ "" → agents.lookup s = some a →
        resolve_starting agents (some s) current = (s, a)) ∧
    (∀ s, s = "" ∨ agents.lookup s = none →
        resolve_starting agents (some s) current = firstAgent agents) ∧
    (∀ c a, current = some c → c ≠ "" → agents.lookup c = some a →
        resolve_starting agents none current = (c, a)) ∧
    (current = none → resolve_starting agents none current = firstAgent agents) ∧
    (∀ c, current = some c → (c = "" ∨ agents.lookup c = none) →
        resolve_starting agents none current = firstAgent agents) := by
  refine ⟨?_, ?_, ?_, ?_, ?_⟩
  · intro s a hs hl
    simp [resolve_starting, hs, hl]
  · intro s h
    rcases h with rfl | hnone
    · simp [resolve_starting]
    · by_cases hs : s = ""
      · subst hs; simp [resolve_starting]
      · simp [resolve_starting, hs, hnone]
  · intro c a hc hcne hl
    subst hc
    simp [resolve_starting, hcne, hl]
  · intro h
    subst h
    simp [resolve_starting]
  · intro c hc h
    subst hc
    rcases h with rfl | hnone
    · simp [resolve_starting]
    · by_cases hcne : c = ""
      · subst hcne; simp [resolve_starting]
      · simp [resolve_starting, hcne, hnone]

/-- Witness for C3 amended: an existing explicit name is used; a missing explicit name
falls back to the first registered agent. -/
theorem resolve_starting_precedence_witness :
    resolve_starting [("A", agentA), ("B", agentB)] (some "B") (some "A") = ("B", agentB) ∧
    resolve_starting [("A", agentA), ("B", agentB)] (some "C") (some "A") =
      firstAgent [("A", agentA), ("B", agentB)] :=
  ⟨(resolve_starting_precedence [("A", agentA), ("B", agentB)] (some "A")).1 "B" agentB
      (by decide) (by decide),
   (resolve_starting_precedence [("A", agentA), ("B", agentB)] (some "A")).2.1 "C"
      (Or.inr (by decide))⟩

/-- C4 counterexample: during `save_agents` the truncated file is an observable state
that is neither the previous snapshot nor the new one, so a reader or a crash between
truncation and write completion does not see the previous snapshot intact. -/
theorem save_agents_truncated_observable :
    FileState.truncated ∈ save_agents_states [("B", agentB)]
        (FileState.snapshot (save_agents_data [("A", agentA)])) ∧
    FileState.truncated ≠ FileState.snapshot (save_agents_data [("A", agentA)]) ∧
    FileState.truncated ≠ FileState.snapshot (save_agents_data [("B", agentB)]) := by
  decide

/-- C4 amended: `save_agents` truncates the storage file in place and then writes the
serialized registry: the trace starts at the previous content and ends at the new
snapshot, but the truncated file is an intermediate observable state. -/
theorem save_agents_truncate_then_write (agents : Registry) (prev : FileState) :
    (save_agents_states agents prev).head? = some prev ∧
    (save_agents_states agents prev).getLast? =
      some (FileState.snapshot (save_agents_data agents)) ∧
    FileState.truncated ∈ save_agents_states agents prev := by
  refine ⟨rfl, rfl, ?_⟩
  simp [save_agents_states]

theorem load_loop_save (r : Registry) (acc : Registry) :
    load_agents_loop (save_agents_data r) acc =
      (acc ++ r.map (fun p => (p.1, ⟨p.2.name, p.2.model, p.2.instructions, []⟩)), true) := by
  induction r generalizing acc with
  | nil => simp [save_agents_data, load_agents_loop]
  | cons p r ih =>
    calc load_agents_loop (save_agents_data (p :: r)) acc
        = load_agents_loop (save_agents_data r)
            (acc ++ [(p.1, (⟨p.2.name, p.2.model, p.2.instructions, []⟩ : ClaudeAgent))]) := rfl
      _ = (acc ++ [(p.1, (⟨p.2.name, p.2.model, p.2.instructions, []⟩ : ClaudeAgent))] ++
            r.map (fun q => (q.1, ⟨q.2.name, q.2.model, q.2.instructions, []⟩)), true) := ih _
      _ = (acc ++ (p :: r).map (fun q => (q.1, ⟨q.2.name, q.2.model, q.2.instructions, []⟩)),
            true) := by simp

theorem triples_setup (l : Registry) :
    triples (_setup_transfer_functions l) = triples l := by
  rw [setup_eq_map]
  unfold triples
  rw [List.map_map]
  rfl

/-- C5: saving a registry and loading the result back (into a fresh process state)
reproduces the same `{name, model, instructions}` triples; the stored payload never
depends on the transfer targets, and the loaded registry's transfer targets are the
freshly recomputed complete relation. -/
theorem save_load_round_trip (r : Registry) :
    triples (load_agents (.parsed (save_agents_data r)) [] none).1 = triples r ∧
    save_agents_data (_setup_transfer_functions r) = save_agents_data r ∧
    ∀ p ∈ (load_agents (.parsed (save_agents_data r)) [] none).1,
      p.2.functions = (r.map Prod.fst).filter fun t => t != p.1 := by
  have hreg : (load_agents (.parsed (save_agents_data r)) [] none).1 =
      _setup_transfer_functions
        (r.map fun p => (p.1, ⟨p.2.name, p.2.model, p.2.instructions, []⟩)) := by
    simp [load_agents, load_loop_save r []]
  refine ⟨?_, ?_, ?_⟩
  · rw [hreg, triples_setup]
    unfold triples
    rw [List.map_map]
    rfl
  · rw [setup_eq_map]
    unfold save_agents_data
    rw [List.map_map]
    rfl
  · intro p hp
    rw [hreg] at hp
    rw [setup_functions_spec _ p hp, List.map_map]
    rfl

/-- Witness for C5: the functions of a loaded record are the rebuilt relation, at a
concrete two-agent registry. -/
theorem save_load_round_trip_witness :
    (("A", (⟨"A", "claude-3-5-sonnet-20241022", "alpha analyst", ["B"]⟩ : ClaudeAgent)) :
        String × ClaudeAgent).2.functions =
      (([("A", agentA), ("B", agentB)] : Registry).map Prod.fst).filter
        (fun t => t != "A") :=
  (save_load_round_trip [("A", agentA), ("B", agentB)]).2.2
    ("A", ⟨"A", "claude-3-5-sonnet-20241022", "alpha analyst", ["B"]⟩) (by decide)

/-- C7: creating an agent under a name already registered fails with the
duplicate-name text and leaves registry and active agent untouched; an empty name or
empty instructions fails with the validation text and inserts nothing. -/
theorem create_agent_rejections (agents : Registry) (current : Option String)
    (name instructions model : String) :
    (name ≠ "" → instructions ≠ "" → (agents.lookup name).isSome = true →
        create_agent_handler agents current name instructions model =
          ("❌ Agent \x27" ++ name ++ "\x27 already exists", agents, current)) ∧
    (name = "" ∨ instructions = "" →
        create_agent_handler agents current name instructions model =
          ("❌ Name and instructions required", agents, current)) := by
  constructor
  · intro h1 h2 h3
    have hv : ¬(name = "" ∨ instructions = "") := by
      rintro (h | h)
      · exact h1 h
      · exact h2 h
    unfold create_agent_handler
    rw [if_neg hv, if_pos h3]
  · intro h
    unfold create_agent_handler
    rw [if_pos h]

/-- Witness for C7: duplicate rejection and validation rejection at a concrete
registry. -/
theorem create_agent_rejections_witness :
    create_agent_handler [("A", agentA)] (some "A") "A" "some instructions" "m" =
      ("❌ Agent \x27A\x27 already exists", [("A", agentA)], some "A") ∧
    create_agent_handler [("A", agentA)] (some "A") "" "some instructions" "m" =
      ("❌ Name and instructions required", [("A", agentA)], some "A") :=
  ⟨(create_agent_rejections [("A", agentA)] (some "A") "A" "some instructions" "m").1
      (by decide) (by decide) (by decide),
   (create_agent_rejections [("A", agentA)] (some "A") "" "some instructions" "m").2
      (Or.inl rfl)⟩

/-- C9 counterexample: a parseable file whose second record lacks the `model` field
leaves the first record in the registry — the registry is not empty, partial state is
retained. -/
theorem load_malformed_retains_records :
    (load_agents (.parsed
        [("A", ⟨[("name", "A"), ("model", "m1"), ("instructions", "i1")]⟩),
         ("B", ⟨[("name", "B"), ("instructions", "i2")]⟩)]) [] none).1 =
      [("A", ⟨"A", "m1", "i1", []⟩)] ∧
    ([("A", (⟨"A", "m1", "i1", []⟩ : ClaudeAgent))] : Registry) ≠ [] := by
  decide

/-- C9 amended: a missing file leaves registry and active agent untouched with no
fault; content that fails to parse is logged and leaves them untouched; but when the
parsed content makes the record loop abort, the records inserted before the abort are
retained and the error is logged. -/
theorem load_agents_failure_modes (agents0 : Registry) (current0 : Option String) :
    load_agents .missing agents0 current0 = (agents0, current0, false) ∧
    load_agents .invalidJson agents0 current0 = (agents0, current0, true) ∧
    ∀ entries agents1, load_agents_loop entries [] = (agents1, false) →
      load_agents (.parsed entries) [] current0 = (agents1, current0, true) := by
  refine ⟨rfl, rfl, ?_⟩
  intro entries agents1 h
  simp [load_agents, h]

/-- Witness for C9 amended: the aborting loop case at a concrete malformed file. -/
theorem load_agents_failure_modes_witness :
    load_agents (.parsed
        [("A", ⟨[("name", "A"), ("model", "m1"), ("instructions", "i1")]⟩),
         ("C", ⟨[("model", "m2")]⟩)]) [] (some "Z") =
      ([("A", ⟨"A", "m1", "i1", []⟩)], some "Z", true) :=
  (load_agents_failure_modes [] (some "Z")).2.2 _ _ rfl

theorem finance_fold (agents : Registry) (company : String)
    (h : ∀ n ∈ financeNames, agents.lookup n = none) :
    (team_specs company).foldl
      (fun (acc : Registry × List String) spec =>
        if (acc.1.lookup spec.1).isSome then acc
        else (acc.1 ++ [(spec.1, ⟨spec.1, spec.2.2, spec.2.1, []⟩)], acc.2 ++ [spec.1]))
      (agents, []) = (agents ++ finance_agents company, financeNames) := by
  have h1 : agents.lookup "Risk_Analyst" = none := h _ (by decide)
  have h2 : agents.lookup "Portfolio_Manager" = none := h _ (by decide)
  have h3 : agents.lookup "Data_Analyst" = none := h _ (by decide)
  have h4 : agents.lookup "Research_Analyst" = none := h _ (by decide)
  simp [team_specs, financeNames, finance_agents, List.lookup_append, List.lookup_cons,
    h1, h2, h3, h4, List.append_assoc]

theorem finance_fold_present (r : Registry) (company : String)
    (h : ∀ n ∈ financeNames, (r.lookup n).isSome = true) :
    (team_specs company).foldl
      (fun (acc : Registry × List String) spec =>
        if (acc.1.lookup spec.1).isSome then acc
        else (acc.1 ++ [(spec.1, ⟨spec.1, spec.2.2, spec.2.1, []⟩)], acc.2 ++ [spec.1]))
      (r, []) = (r, []) := by
  have h1 : (r.lookup "Risk_Analyst").isSome = true := h _ (by decide)
  have h2 : (r.lookup "Portfolio_Manager").isSome = true := h _ (by decide)
  have h3 : (r.lookup "Data_Analyst").isSome = true := h _ (by decide)
  have h4 : (r.lookup "Research_Analyst").isSome = true := h _ (by decide)
  simp [team_specs, h1, h2, h3, h4]

/-- C6: starting from a registry containing none of the four role names, the first
`create_finance_team_handler` call adds exactly the four roles (in order) and sets the
designated active agent, the second call with the same company adds nothing and leaves
every record and the active agent untouched, and both calls return a success text, the
second one the distinct already-exists text. -/
theorem finance_team_idempotent (agents : Registry) (current : Option String)
    (company : String) (h : ∀ n ∈ financeNames, agents.lookup n = none) :
    (create_finance_team_handler agents current company).2.1.map Prod.fst =
      agents.map Prod.fst ++ financeNames ∧
    (create_finance_team_handler agents current company).2.2 = some "Risk_Analyst" ∧
    (create_finance_team_handler agents current company).1 =
      "✅ **Swarm Finance Team for " ++ company ++ "**\n\n" ++
      "**Created agents with transfer capabilities:** " ++
      "Risk_Analyst, Portfolio_Manager, Data_Analyst, Research_Analyst" ++ "\n\n" ++
      "🔄 **Swarm Features Enabled:**\n" ++
      "• Automatic agent handoffs based on expertise\n" ++
      "• Shared conversation context\n" ++
      "• Intelligent routing between specialists\n\n" ++
      "💡 **Try multi-step queries** - agents will coordinate automatically!" ∧
    create_finance_team_handler
        (create_finance_team_handler agents current company).2.1
        (create_finance_team_handler agents current company).2.2 company =
      ("✅ **Swarm Finance Team for " ++ company ++ "**\n\n" ++
        "**Team already exists for " ++ company ++ "**",
       (create_finance_team_handler agents current company).2.1,
       (create_finance_team_handler agents current company).2.2) := by
  have hfirst : create_finance_team_handler agents current company =
      ("✅ **Swarm Finance Team for " ++ company ++ "**\n\n" ++
       "**Created agents with transfer capabilities:** " ++
       "Risk_Analyst, Portfolio_Manager, Data_Analyst, Research_Analyst" ++ "\n\n" ++
       "🔄 **Swarm Features Enabled:**\n" ++
       "• Automatic agent handoffs based on expertise\n" ++
       "• Shared conversation context\n" ++
       "• Intelligent routing between specialists\n\n" ++
       "💡 **Try multi-step queries** - agents will coordinate automatically!",
       _setup_transfer_functions (agents ++ finance_agents company),
       some "Risk_Analyst") := by
    simp only [create_finance_team_handler]
    rw [finance_fold agents company h]
    rfl
  have hp : ∀ n ∈ financeNames,
      ((_setup_transfer_functions (agents ++ finance_agents company)).lookup n).isSome =
        true := by
    intro n hn
    rw [lookup_setup_isSome, lookup_append_isSome]
    have hfa : (List.lookup n (finance_agents company)).isSome = true := by
      simp only [financeNames, List.mem_cons, List.not_mem_nil, or_false] at hn
      rcases hn with rfl | rfl | rfl | rfl <;> rfl
    rw [hfa, Bool.or_true]
  have hsecond : create_finance_team_handler
      (_setup_transfer_functions (agents ++ finance_agents company))
      (some "Risk_Analyst") company =
      ("✅ **Swarm Finance Team for " ++ company ++ "**\n\n" ++
        "**Team already exists for " ++ company ++ "**",
       _setup_transfer_functions (agents ++ finance_agents company),
       some "Risk_Analyst") := by
    simp only [create_finance_team_handler]
    rw [finance_fold_present _ company hp]
    rfl
  refine ⟨?_, ?_, ?_, ?_⟩
  · rw [hfirst]
    show (_setup_transfer_functions (agents ++ finance_agents company)).map Prod.fst =
      agents.map Prod.fst ++ financeNames
    rw [setup_keys, List.map_append]
    rfl
  · rw [hfirst]
  · rw [hfirst]
  · rw [hfirst]
    exact hsecond

/-- Witness for C6 starting from the empty registry. -/
theorem finance_team_idempotent_witness :
    (create_finance_team_handler [] none "Acme").2.1.map Prod.fst = financeNames ∧
    (create_finance_team_handler [] none "Acme").2.2 = some "Risk_Analyst" ∧
    (create_finance_team_handler [] none "Acme").1 =
      "✅ **Swarm Finance Team for Acme**\n\n" ++
      "**Created agents with transfer capabilities:** " ++
      "Risk_Analyst, Portfolio_Manager, Data_Analyst, Research_Analyst" ++ "\n\n" ++
      "🔄 **Swarm Features Enabled:**\n" ++
      "• Automatic agent handoffs based on expertise\n" ++
      "• Shared conversation context\n" ++
      "• Intelligent routing between specialists\n\n" ++
      "💡 **Try multi-step queries** - agents will coordinate automatically!" ∧
    create_finance_team_handler
        (create_finance_team_handler [] none "Acme").2.1
        (create_finance_team_handler [] none "Acme").2.2 "Acme" =
      ("✅ **Swarm Finance Team for Acme**\n\n**Team already exists for Acme**",
       (create_finance_team_handler [] none "Acme").2.1,
       (create_finance_team_handler [] none "Acme").2.2) :=
  finance_team_idempotent [] none "Acme" (by decide)

/-- C10: when the collaborator succeeds with an empty message list, the handler still
commits the empty transcript, the returned active agent and the merged context, and
the visible reply content is the literal fallback `"No response"`. -/
theorem chat_empty_messages_fallback
    (run : ClaudeAgent → List Message → List (String × String) → Except String SwarmResponse)
    (agents : Registry) (st : SessionState) (message : String)
    (agent_name : Option String) (resp : SwarmResponse)
    (hm : message ≠ "") (ha : agents ≠ [])
    (hr : run (resolve_starting agents agent_name st.current_agent).2
        (st.conversation_history ++ [⟨"user", message⟩]) st.context_variables =
        Except.ok resp)
    (hempty : resp.messages = []) :
    chat_with_swarm_handler run agents st message agent_name =
      ("🤖 **" ++ resp.agentName ++ "**:\n\n" ++ "No response" ++
        (if resp.agentName ≠ (resolve_starting agents agent_name st.current_agent).1 then
          "\n\n🔄 **Agent Transfer**: " ++
            (resolve_starting agents agent_name st.current_agent).1 ++ " → " ++ resp.agentName
        else ""),
       ⟨[], some resp.agentName,
        dictUpdate st.context_variables resp.context_variables⟩) := by
  simp [chat_with_swarm_handler, hm, ha, hr, hempty]

/-- Witness for C10 at a concrete collaborator returning no messages. -/
theorem chat_empty_messages_fallback_witness :
    chat_with_swarm_handler runEmpty [("A", agentA)]
        ⟨[], some "A", [("k", "v")]⟩ "hi" none =
      ("🤖 **Solo**:\n\nNo response\n\n🔄 **Agent Transfer**: A → Solo",
       ⟨[], some "Solo", [("k", "v"), ("k2", "v2")]⟩) :=
  chat_empty_messages_fallback runEmpty [("A", agentA)]
    ⟨[], some "A", [("k", "v")]⟩ "hi" none ⟨[], "Solo", [("k2", "v2")]⟩
    (by decide) (by decide) rfl rfl
